import Mathlib

/-!
Shallow embedding of the gamehub-lite-api registry / validator / generator
subsystem (TypeScript), for checking its natural-language specification.

Source files embedded:
  - src/types/component.ts   (data model)
  - src/registry/registry.ts (ComponentRegistry)
  - src/generators/downloads-generator.ts (generateManifest)
  - src/generators/index-generator.ts     (generateIndex)
  - src/generators/simulator-generators.ts (generateDefaultComponent,
    generateExecuteScript)

Modelling conventions:
  - JS `Map` iteration/insertion order is modelled with ordered lists.
  - `file_size` is modelled as a dynamic value (`JsValue`): although the
    TypeScript interface declares it `string`, `validate()` checks its
    runtime type (`typeof component.file_size !== 'string'`), so the
    runtime value may be a number coming from the untyped XML parser.
  - `throw` is modelled with `Except String`.
  - `console.warn` (pure logging) is not modelled.
  - JS `Array.prototype.sort` is stable; it is modelled by a stable
    insertion sort with the same comparator semantics.
-/

/-- A dynamically typed JS value as far as the code inspects it:
`typeof x !== 'string'` distinguishes strings from (here) numbers. -/
inductive JsValue where
  | str (s : String)
  | num (n : Int)
deriving DecidableEq, Repr

/-- `typeof v === 'string'`. -/
def JsValue.isStr : JsValue → Bool
  | .str _ => true
  | .num _ => false

/-- Container.framework: 'X64' | 'arm64X' | 'X86'. -/
inductive Framework where
  | X64
  | arm64X
  | X86
deriving DecidableEq, Repr

/-- Container.framework_type: 'stable' | 'proton' | 'experimental'. -/
inductive FrameworkType where
  | stable
  | proton
  | experimental
deriving DecidableEq, Repr

/-- Optional nested download of a Container (`sub_data`). -/
structure SubData where
  sub_file_name : String
  sub_download_url : String
  sub_file_md5 : String
deriving DecidableEq, Repr

/-- The canonical component data model (src/types/component.ts `Component`).
`type` is `ComponentTypeValue`, i.e. an integer in 1..7 in TypeScript; it is
modelled as `Nat` and claims restrict it to 1..7 where relevant. -/
structure Component where
  id : Int
  name : String
  type : Nat
  version : String
  version_code : Int
  file_name : String
  file_md5 : String
  file_size : JsValue
  download_url : String
  logo : String
  display_name : String
  blurb : Option String
  gpu_range : Option String
  is_steam : Option Int
deriving DecidableEq, Repr

/-- Container - Wine/Proton build (src/types/component.ts `Container`). -/
structure Container where
  id : Int
  name : String
  version : String
  version_code : Int
  file_name : String
  file_md5 : String
  file_size : String
  download_url : String
  logo : String
  display_name : String
  framework : Framework
  framework_type : FrameworkType
  is_steam : Int
  sub_data : Option SubData
deriving DecidableEq, Repr

/-- Imagefs - base firmware singleton (src/types/component.ts `Imagefs`). -/
structure Imagefs where
  id : Int
  name : String
  version : String
  version_code : Int
  file_name : String
  file_md5 : String
  file_size : String
  download_url : String
  logo : String
  display_name : String
  upgrade_msg : String
  blurb : String
deriving DecidableEq, Repr

/-- Controller capability flags of `ExecutionConfig`. -/
structure Controller where
  dinput : Bool
  xinput : Bool
  xboxLayout : Bool
  vibration : Bool
deriving DecidableEq, Repr

/-- Translation tables of `ExecutionConfig` (two `Record<string,string>`). -/
structure Translations where
  box64 : List (String × String)
  fex : List (String × String)
deriving DecidableEq, Repr

/-- Static execution parameters (src/types/component.ts `ExecutionConfig`). -/
structure ExecutionConfig where
  translations : Translations
  controller : Controller
  audio_driver : Int
  cpu_limitations : Int
  video_memory : Int
  directx_panel : Int
  launch_windowed_mode : Int
  start_param : String
  environment : String
deriving DecidableEq, Repr

/-- Execution context parameters (src/types/component.ts `ExecutionContext`):
`params` is the tuple [string, number, string, number, string, number]. -/
structure ExecutionContext where
  params : String × Int × String × Int × String × Int
  script_id : Int
  timestamp : Int
deriving DecidableEq, Repr

/-- Default component selection (src/types/component.ts `Defaults`). -/
structure Defaults where
  dxvk : Int
  vkd3d : Int
  steamClient : Int
  container : Int
  genericComponentIds : List Int
  qualcommComponentIds : List Int
  genericContext : ExecutionContext
  qualcommContext : ExecutionContext
deriving DecidableEq, Repr

/-- Registry construction configuration: `cdnBaseUrl` and `logoUrl`
(the parts of `BuildConfig` the registry reads). -/
structure BuildConfig where
  cdnBaseUrl : String
  logoUrl : String
deriving DecidableEq, Repr

/-- Metadata of one component type (`COMPONENT_TYPE_META` entry). -/
structure TypeMeta where
  name : String
  displayName : String
  manifest : String
deriving DecidableEq, Repr

/-- `COMPONENT_TYPE_META` (src/types/component.ts). In TypeScript the record
is indexed only by 1..7; other indices are unreachable under the types and
get a dummy entry here. -/
def COMPONENT_TYPE_META : Nat → TypeMeta
  | 1 => { name := "box64", displayName := "Box64 Emulators", manifest := "box64_manifest" }
  | 2 => { name := "drivers", displayName := "GPU Drivers", manifest := "drivers_manifest" }
  | 3 => { name := "dxvk", displayName := "DXVK Layers", manifest := "dxvk_manifest" }
  | 4 => { name := "vkd3d", displayName := "VKD3D Proton", manifest := "vkd3d_manifest" }
  | 5 => { name := "games", displayName := "Game Patches", manifest := "games_manifest" }
  | 6 => { name := "libraries", displayName := "System Libraries", manifest := "libraries_manifest" }
  | 7 => { name := "steam", displayName := "Steam Components", manifest := "steam_manifest" }
  | _ => { name := "", displayName := "", manifest := "" }

/-- The central registry (src/registry/registry.ts `ComponentRegistry`).
`components` is the id-keyed insertion-ordered `Map` (values in insertion
order); `componentsByType` is the per-type partition `Map` (a total function
standing for the map initialised with [] for types 1..7);
`componentsByName` is the name-keyed `Map` as an insertion-ordered
association list. -/
structure Registry where
  components : List Component
  componentsByType : Nat → List Component
  componentsByName : List (String × Component)
  containers : List Container
  imagefs : Option Imagefs
  defaults : Option Defaults
  executionConfig : Option ExecutionConfig
  config : BuildConfig

/-- Freshly constructed registry (the constructor). -/
def emptyRegistry (config : BuildConfig) : Registry :=
  { components := []
    componentsByType := fun _ => []
    componentsByName := []
    containers := []
    imagefs := none
    defaults := none
    executionConfig := none
    config := config }

/-- The URL/logo rewrite performed inside `addComponent` (lines 58-62):
spread of the source component with `download_url` and `logo` replaced. -/
def rewriteComponent (config : BuildConfig) (c : Component) : Component :=
  { c with
    download_url := config.cdnBaseUrl ++ "/" ++ c.file_name
    logo := config.logoUrl }

/-- JS `Map.set` on a string-keyed association list: replaces the value in
place when the key is present, appends otherwise. -/
def mapSetName (k : String) (v : Component) :
    List (String × Component) → List (String × Component)
  | [] => [(k, v)]
  | kv :: rest =>
      if kv.1 == k then (k, v) :: rest else kv :: mapSetName k v rest

/-- `ComponentRegistry.addComponent`: duplicate ids are rejected (keep
first, warn - logging unmodelled); otherwise the rewritten component is
appended to the id map, the type partition and the name map. -/
def addComponent (r : Registry) (c : Component) : Registry :=
  if r.components.any (fun e => e.id == c.id) then
    r
  else
    let rewritten := rewriteComponent r.config c
    { r with
      components := r.components ++ [rewritten]
      componentsByType := fun t =>
        if t == c.type then r.componentsByType t ++ [rewritten]
        else r.componentsByType t
      componentsByName := mapSetName c.name rewritten r.componentsByName }

/-- `ComponentRegistry.addComponents`: adds each component in order. -/
def addComponents (r : Registry) (cs : List Component) : Registry :=
  cs.foldl addComponent r

/-- Registry obtained by constructing with `config` and registering the
components of `cs` in order. -/
def buildRegistry (config : BuildConfig) (cs : List Component) : Registry :=
  addComponents (emptyRegistry config) cs

/-- `getById`: `Map.get` on the id-keyed map. -/
def getById (r : Registry) (i : Int) : Option Component :=
  r.components.find? (fun c => c.id == i)

/-- `getByName`: `Map.get` on the name-keyed map. -/
def getByName (r : Registry) (n : String) : Option Component :=
  (r.componentsByName.find? (fun kv => kv.1 == n)).map (fun kv => kv.2)

/-- `getByType`: the type partition (`componentsByType.get(type) || []`). -/
def getByType (r : Registry) (t : Nat) : List Component :=
  r.componentsByType t

/-- `getAllComponents`: values of the id map in insertion order. -/
def getAllComponents (r : Registry) : List Component :=
  r.components

/-- `getTotalCount`: size of the id map. -/
def getTotalCount (r : Registry) : Nat :=
  r.components.length

/-- `getCountByType`. -/
def getCountByType (r : Registry) (t : Nat) : Nat :=
  (getByType r t).length

/-- Stable insertion of `c` into a list sorted by id descending: `c` goes
in front of the first element whose id is not greater than `c.id`. -/
def insertDescById (c : Component) : List Component → List Component
  | [] => [c]
  | d :: ds => if d.id ≤ c.id then c :: d :: ds else d :: insertDescById c ds

/-- `sortByIdDescending`: `[...components].sort((a, b) => b.id - a.id)`.
JS sort is stable, so it is modelled by stable insertion sort with the
same key order. -/
def sortByIdDescending : List Component → List Component
  | [] => []
  | c :: cs => insertDescById c (sortByIdDescending cs)

/-- One character of the body of `/^[a-f0-9]{32}$/i`. -/
def isMd5HexChar (ch : Char) : Bool :=
  (Char.ofNat 97 ≤ ch && ch ≤ Char.ofNat 102) ||
  (Char.ofNat 65 ≤ ch && ch ≤ Char.ofNat 70) ||
  (Char.ofNat 48 ≤ ch && ch ≤ Char.ofNat 57)

/-- `/^[a-f0-9]{32}$/i.test(s)`: exactly 32 characters, each a hex digit,
case-insensitively. -/
def md5Ok (s : String) : Bool :=
  s.length == 32 && s.toList.all isMd5HexChar

/-- Spec-side notion (not in the code): `s` consists solely of decimal
digits. Used to state the spec's "file_size is a string of digits". -/
def allDigits (s : String) : Bool :=
  s.toList.all (fun ch => Char.ofNat 48 ≤ ch && ch ≤ Char.ofNat 57)

/-- Error message "Component {id}: file_size must be string". -/
def msgFileSize (c : Component) : String :=
  "Component " ++ toString c.id ++ ": file_size must be string"

/-- Error message "Component {id}: invalid MD5 hash". -/
def msgMd5 (c : Component) : String :=
  "Component " ++ toString c.id ++ ": invalid MD5 hash"

/-- Error message "Component {id}: missing name". -/
def msgName (c : Component) : String :=
  "Component " ++ toString c.id ++ ": missing name"

/-- Error message "Component {id}: missing file_name". -/
def msgFileName (c : Component) : String :=
  "Component " ++ toString c.id ++ ": missing file_name"

/-- Error message "Component {id}: missing download_url". -/
def msgDownloadUrl (c : Component) : String :=
  "Component " ++ toString c.id ++ ": missing download_url"

/-- Error message "Default dxvk ID {id} not found". -/
def msgDxvk (i : Int) : String :=
  "Default dxvk ID " ++ toString i ++ " not found"

/-- Error message "Default vkd3d ID {id} not found". -/
def msgVkd3d (i : Int) : String :=
  "Default vkd3d ID " ++ toString i ++ " not found"

/-- Error message "Default steamClient ID {id} not found". -/
def msgSteamClient (i : Int) : String :=
  "Default steamClient ID " ++ toString i ++ " not found"

/-- Error message "Generic script component ID {id} not found". -/
def msgGeneric (i : Int) : String :=
  "Generic script component ID " ++ toString i ++ " not found"

/-- Error message "Qualcomm script component ID {id} not found". -/
def msgQualcomm (i : Int) : String :=
  "Qualcomm script component ID " ++ toString i ++ " not found"

/-- The per-component checks of `validate` (registry.ts lines 185-206),
in source order: file_size runtime type, MD5 format, then the three
required-field truthiness checks. -/
def validateComponentErrors (c : Component) : List String :=
  (if c.file_size.isStr then [] else [msgFileSize c]) ++
  (if md5Ok c.file_md5 then [] else [msgMd5 c]) ++
  (if c.name == "" then [msgName c] else []) ++
  (if c.file_name == "" then [msgFileName c] else []) ++
  (if c.download_url == "" then [msgDownloadUrl c] else [])

/-- The default-reference checks of `validate` (registry.ts lines 209-231),
ran only when `defaults` is loaded. -/
def validateDefaultsErrors (r : Registry) (d : Defaults) : List String :=
  (if r.components.any (fun c => c.id == d.dxvk) then []
   else [msgDxvk d.dxvk]) ++
  (if r.components.any (fun c => c.id == d.vkd3d) then []
   else [msgVkd3d d.vkd3d]) ++
  (if r.components.any (fun c => c.id == d.steamClient) then []
   else [msgSteamClient d.steamClient]) ++
  d.genericComponentIds.flatMap (fun i =>
    if r.components.any (fun c => c.id == i) then [] else [msgGeneric i]) ++
  d.qualcommComponentIds.flatMap (fun i =>
    if r.components.any (fun c => c.id == i) then [] else [msgQualcomm i])

/-- Result of `ComponentRegistry.validate`. -/
structure ValidationResult where
  valid : Bool
  errors : List String
deriving DecidableEq, Repr

/-- `ComponentRegistry.validate` (registry.ts lines 160-237): accumulates
every violation - required singletons, per-component checks in map
iteration (insertion) order, then default-reference checks - and returns
`valid := errors.length == 0`. -/
def validate (r : Registry) : ValidationResult :=
  let errors :=
    (if r.components.isEmpty then ["No components loaded"] else []) ++
    (if r.imagefs.isNone then ["Imagefs not loaded"] else []) ++
    (if r.containers.isEmpty then ["No containers loaded"] else []) ++
    (if r.defaults.isNone then ["Defaults not loaded"] else []) ++
    (if r.executionConfig.isNone then ["Execution config not loaded"] else []) ++
    r.components.flatMap validateComponentErrors ++
    (match r.defaults with
     | none => []
     | some d => validateDefaultsErrors r d)
  { valid := errors.isEmpty, errors := errors }

/-- Entry of a per-type manifest (`ManifestComponent`): `is_ui = 1`, no
`blurb`/`gpu_range`; field set as in `toManifestComponent`. -/
structure ManifestComponent where
  display_name : String
  download_url : String
  file_md5 : String
  file_name : String
  file_size : JsValue
  id : Int
  is_ui : Int
  logo : String
  name : String
  type : Nat
  version : String
  version_code : Int
deriving DecidableEq, Repr

/-- `toManifestComponent` (downloads-generator.ts). `display_name` is a
required string in the model, so the source's `?? ''` is the identity. -/
def toManifestComponent (c : Component) : ManifestComponent :=
  { display_name := c.display_name
    download_url := c.download_url
    file_md5 := c.file_md5
    file_name := c.file_name
    file_size := c.file_size
    id := c.id
    is_ui := 1
    logo := c.logo
    name := c.name
    type := c.type
    version := c.version
    version_code := c.version_code }

/-- `data` of a manifest file. -/
structure ManifestData where
  type : Nat
  type_name : String
  display_name : String
  total : Nat
  components : List ManifestComponent
deriving DecidableEq, Repr

/-- A per-type manifest document. -/
structure ManifestFile where
  code : Nat
  msg : String
  data : ManifestData
deriving DecidableEq, Repr

/-- `generateManifest` (downloads-generator.ts lines 74-94): the type's
partition sorted by id descending, projected to manifest entries. -/
def generateManifest (r : Registry) (type : Nat) : ManifestFile :=
  let meta := COMPONENT_TYPE_META type
  let sorted := sortByIdDescending (getByType r type)
  { code := 200
    msg := "Success"
    data :=
      { type := type
        type_name := meta.name
        display_name := meta.displayName
        total := (sorted.map toManifestComponent).length
        components := sorted.map toManifestComponent } }

/-- One category of the index document. -/
structure IndexCategory where
  count : Nat
  display_name : String
  manifest_url : String
  name : String
  type : Nat
deriving DecidableEq, Repr

/-- `data` of the index document. -/
structure IndexData where
  categories : List IndexCategory
  total_components : Nat
deriving DecidableEq, Repr

/-- The index document. -/
structure IndexFile where
  code : Nat
  msg : String
  data : IndexData
deriving DecidableEq, Repr

/-- The category built for one type inside `generateIndex`'s loop. -/
def indexCategory (r : Registry) (type : Nat) : IndexCategory :=
  let meta := COMPONENT_TYPE_META type
  { count := getCountByType r type
    display_name := meta.displayName
    manifest_url := "/components/" ++ meta.manifest
    name := meta.name
    type := type }

/-- `generateIndex` (index-generator.ts lines 10-36): one category per
type 1..7 in ascending order, plus the total component count. -/
def generateIndex (r : Registry) : IndexFile :=
  { code := 200
    msg := "Success"
    data :=
      { categories := (List.range 7).map (fun k => indexCategory r (k + 1))
        total_components := getTotalCount r } }

/-- Entry of the default-component document (`DefaultComponentEntry`):
has `blurb`, no `is_ui`/`gpu_range`. -/
structure DefaultComponentEntry where
  blurb : String
  display_name : String
  download_url : String
  file_md5 : String
  file_name : String
  file_size : JsValue
  id : Int
  logo : String
  name : String
  type : Nat
  version : String
  version_code : Int
deriving DecidableEq, Repr

/-- `toDefaultComponentEntry` (simulator-generators.ts). -/
def toDefaultComponentEntry (c : Component) : DefaultComponentEntry :=
  { blurb := c.blurb.getD ""
    display_name := c.display_name
    download_url := c.download_url
    file_md5 := c.file_md5
    file_name := c.file_name
    file_size := c.file_size
    id := c.id
    logo := c.logo
    name := c.name
    type := c.type
    version := c.version
    version_code := c.version_code }

/-- `createEmptyComponent` (simulator-generators.ts): the empty translator
placeholder, all fields blank or zero (`file_size` is the string ''). -/
def createEmptyComponent : DefaultComponentEntry :=
  { blurb := ""
    display_name := ""
    download_url := ""
    file_md5 := ""
    file_name := ""
    file_size := JsValue.str ""
    id := 0
    logo := ""
    name := ""
    type := 0
    version := ""
    version_code := 0 }

/-- `data` of the default-component document: `container` and `gpu` are
the JS literal `null`. -/
structure DefaultComponentData where
  container : Option DefaultComponentEntry
  gpu : Option DefaultComponentEntry
  dxvk : DefaultComponentEntry
  vkd3d : DefaultComponentEntry
  translator : DefaultComponentEntry
  steamClient : DefaultComponentEntry
deriving DecidableEq, Repr

/-- The default-component document. -/
structure DefaultComponentFile where
  code : Nat
  msg : String
  data : DefaultComponentData
  time : String
deriving DecidableEq, Repr

/-- `generateDefaultComponent` (simulator-generators.ts lines 270-297):
resolves the three default ids, throwing when any is missing. A `null`
`defaults` makes the source crash on property access (`defaults!`); that
is modelled as an error too. The `timestamp` argument is the explicit
parameter of the source function (the `getTimestamp()` fallback is I/O). -/
def generateDefaultComponent (r : Registry) (timestamp : String) :
    Except String DefaultComponentFile :=
  match r.defaults with
  | none => .error "defaults is null"
  | some defaults =>
    match getById r defaults.dxvk, getById r defaults.vkd3d,
        getById r defaults.steamClient with
    | some dxvk, some vkd3d, some steamClient =>
        .ok
          { code := 200
            msg := "Success"
            data :=
              { container := none
                gpu := none
                dxvk := toDefaultComponentEntry dxvk
                vkd3d := toDefaultComponentEntry vkd3d
                translator := createEmptyComponent
                steamClient := toDefaultComponentEntry steamClient }
            time := timestamp }
    | _, _, _ => .error "Default components not found in registry"

/-- Entry of an execute-script document (`ExecuteComponent`):
`is_base = 0`, `base_type = 0`, `is_ui = 1`. -/
structure ExecuteComponent where
  base_type : Int
  blurb : String
  display_name : String
  download_url : String
  file_md5 : String
  file_name : String
  file_size : JsValue
  id : Int
  is_base : Int
  is_ui : Int
  logo : String
  name : String
  type : Nat
  version : String
  version_code : Int
deriving DecidableEq, Repr

/-- `toExecuteComponent` (simulator-generators.ts). -/
def toExecuteComponent (c : Component) : ExecuteComponent :=
  { base_type := 0
    blurb := c.blurb.getD ""
    display_name := c.display_name
    download_url := c.download_url
    file_md5 := c.file_md5
    file_name := c.file_name
    file_size := c.file_size
    id := c.id
    is_base := 0
    is_ui := 1
    logo := c.logo
    name := c.name
    type := c.type
    version := c.version
    version_code := c.version_code }

/-- `toImagefsRef` (simulator-generators.ts). -/
structure ImagefsRef where
  display_name : String
  download_url : String
  file_md5 : String
  file_name : String
  file_size : String
  id : Int
  logo : String
  name : String
  version : String
  version_code : Int
deriving DecidableEq, Repr

/-- Projection of `Imagefs` used in the execute-script document. -/
def toImagefsRef (i : Imagefs) : ImagefsRef :=
  { display_name := i.display_name
    download_url := i.download_url
    file_md5 := i.file_md5
    file_name := i.file_name
    file_size := i.file_size
    id := i.id
    logo := i.logo
    name := i.name
    version := i.version
    version_code := i.version_code }

/-- `toContainerRef` (simulator-generators.ts): container projection with
an empty `blurb`. -/
structure ContainerRef where
  blurb : String
  display_name : String
  download_url : String
  file_md5 : String
  file_name : String
  file_size : String
  framework : Framework
  framework_type : FrameworkType
  id : Int
  is_steam : Int
  logo : String
  name : String
  sub_data : Option SubData
  version : String
  version_code : Int
deriving DecidableEq, Repr

/-- Projection of `Container` used in the execute-script document. -/
def toContainerRef (c : Container) : ContainerRef :=
  { blurb := ""
    display_name := c.display_name
    download_url := c.download_url
    file_md5 := c.file_md5
    file_name := c.file_name
    file_size := c.file_size
    framework := c.framework
    framework_type := c.framework_type
    id := c.id
    is_steam := c.is_steam
    logo := c.logo
    name := c.name
    sub_data := c.sub_data
    version := c.version
    version_code := c.version_code }

/-- The two execute-script variants. -/
inductive Variant where
  | generic
  | qualcomm
deriving DecidableEq, Repr

/-- `data` of an execute-script document. -/
structure ExecuteScriptData where
  audio_driver : Int
  component : List ExecuteComponent
  component_ids : List Int
  container : ContainerRef
  container_id : Int
  controller : Controller
  cpu_limitations : Int
  directx_panel : Int
  environment : String
  execution_context : ExecutionContext
  imagefs : ImagefsRef
  launch_windowed_mode : Int
  start_param : String
  translations : Translations
  video_memory : Int
deriving DecidableEq, Repr

/-- An execute-script document. -/
structure ExecuteScriptFile where
  code : Nat
  msg : String
  data : ExecuteScriptData
  time : String
deriving DecidableEq, Repr

/-- The component-resolution loop of `generateExecuteScript` (lines
358-364): each id is looked up and pushed when found, unresolvable ids
are skipped. -/
def collectExecuteComponents (r : Registry) : List Int → List ExecuteComponent
  | [] => []
  | i :: is =>
    match getById r i with
    | some c => toExecuteComponent c :: collectExecuteComponents r is
    | none => collectExecuteComponents r is

/-- `generateExecuteScript` (simulator-generators.ts lines 334-388): the
container is resolved by id and missing containers throw ("Container {id}
not found"); a `null` `defaults` crashes at `defaults.container` before the
container lookup, while `executionConfig`/`imagefs` being `null` crashes
only at property access in the returned object, after the container check -
the match order mirrors that. -/
def generateExecuteScript (r : Registry) (variant : Variant)
    (timestamp : String) : Except String ExecuteScriptFile :=
  match r.defaults with
  | none => .error "defaults is null"
  | some defaults =>
    match r.containers.find? (fun c => c.id == defaults.container) with
    | none => .error ("Container " ++ toString defaults.container ++ " not found")
    | some container =>
      match r.executionConfig, r.imagefs with
      | some executionConfig, some imagefs =>
        let componentIds :=
          match variant with
          | .generic => defaults.genericComponentIds
          | .qualcomm => defaults.qualcommComponentIds
        let executionContext :=
          match variant with
          | .generic => defaults.genericContext
          | .qualcomm => defaults.qualcommContext
        .ok
          { code := 200
            msg := "Success"
            data :=
              { audio_driver := executionConfig.audio_driver
                component := collectExecuteComponents r componentIds
                component_ids := componentIds
                container := toContainerRef container
                container_id := defaults.container
                controller := executionConfig.controller
                cpu_limitations := executionConfig.cpu_limitations
                directx_panel := executionConfig.directx_panel
                environment := executionConfig.environment
                execution_context := executionContext
                imagefs := toImagefsRef imagefs
                launch_windowed_mode := executionConfig.launch_windowed_mode
                start_param := executionConfig.start_param
                translations := executionConfig.translations
                video_memory := executionConfig.video_memory }
            time := timestamp }
      | _, _ => .error "executionConfig or imagefs is null"

/-- A configuration used for concrete evaluations. -/
def cfg0 : BuildConfig :=
  { cdnBaseUrl := "https://cdn.example.test"
    logoUrl := "https://cdn.example.test/logo.png" }

/-- A well-formed 32-hex-digit MD5 string. -/
def md5Sample : String := "0123456789abcdef0123456789abcdef"

/-- Builds a component record with the given identity and file fields. -/
def mkComp (i : Int) (t : Nat) (nm fn md5 : String) (fs : JsValue) : Component :=
  { id := i
    name := nm
    type := t
    version := "1.0.0"
    version_code := 1
    file_name := fn
    file_md5 := md5
    file_size := fs
    download_url := "https://origin.example.test/" ++ fn
    logo := "https://origin.example.test/logo.png"
    display_name := nm
    blurb := none
    gpu_range := none
    is_steam := none }

/-- Concrete component, id 1, type 1. -/
def compA : Component := mkComp 1 1 "alpha" "alpha.tzst" md5Sample (.str "100")

/-- Concrete component, id 2, type 3. -/
def compB : Component := mkComp 2 3 "beta" "beta.tzst" md5Sample (.str "200")

/-- A different component carrying the already-used id 1. -/
def compDupA : Component := mkComp 1 5 "alpha-dup" "alpha2.tzst" md5Sample (.str "150")

/-- Component with an ill-formed `file_md5`. -/
def compBadMd5 : Component := mkComp 3 2 "gamma" "gamma.tzst" "nothex" (.str "300")

/-- Component whose `file_size` is a number at runtime. -/
def compBadSize : Component := mkComp 4 2 "delta" "delta.tzst" md5Sample (.num 42)

/-- Component whose `file_size` is a string of non-digit characters. -/
def compNonDigitSize : Component := mkComp 1 1 "alpha" "alpha.tzst" md5Sample (.str "abc")

/-- A concrete execution context. -/
def ctx0 : ExecutionContext :=
  { params := ("box64", 0, "fex", 0, "wine", 0), script_id := 1, timestamp := 0 }

/-- A concrete execution configuration. -/
def ec0 : ExecutionConfig :=
  { translations := { box64 := [], fex := [] }
    controller := { dinput := true, xinput := true, xboxLayout := false, vibration := false }
    audio_driver := 0
    cpu_limitations := 0
    video_memory := 0
    directx_panel := 0
    launch_windowed_mode := 0
    start_param := ""
    environment := "" }

/-- A concrete imagefs descriptor. -/
def ifs0 : Imagefs :=
  { id := 1
    name := "imagefs"
    version := "1.0"
    version_code := 1
    file_name := "imagefs.tzst"
    file_md5 := md5Sample
    file_size := "1000"
    download_url := "https://cdn.example.test/imagefs.tzst"
    logo := ""
    display_name := "Imagefs"
    upgrade_msg := ""
    blurb := "" }

/-- A concrete container, id 100. -/
def cont0 : Container :=
  { id := 100
    name := "wine"
    version := "9.0"
    version_code := 9
    file_name := "wine.tzst"
    file_md5 := md5Sample
    file_size := "5000"
    download_url := "https://cdn.example.test/wine.tzst"
    logo := ""
    display_name := "Wine"
    framework := .X64
    framework_type := .stable
    is_steam := 0
    sub_data := none }

/-- Defaults in which all three component slots and the container resolve
in the fixtures below. -/
def defsOk : Defaults :=
  { dxvk := 1
    vkd3d := 1
    steamClient := 1
    container := 100
    genericComponentIds := [1]
    qualcommComponentIds := []
    genericContext := ctx0
    qualcommContext := ctx0 }

/-- Registry state that passes every `validate` check while holding a
component whose `file_size` is the non-digit string "abc". -/
def reg4 : Registry :=
  { components := [compNonDigitSize]
    componentsByType := fun _ => []
    componentsByName := []
    containers := [cont0]
    imagefs := some ifs0
    defaults := some defsOk
    executionConfig := some ec0
    config := cfg0 }

/-- Defaults with an unresolvable dxvk id and an unresolvable generic
script id. -/
def defsW : Defaults :=
  { dxvk := 99
    vkd3d := 1
    steamClient := 1
    container := 100
    genericComponentIds := [77]
    qualcommComponentIds := []
    genericContext := ctx0
    qualcommContext := ctx0 }

/-- Registry holding a bad-MD5 component and a numeric-file_size component
together with unresolvable default references. -/
def regW3 : Registry :=
  { components := [compBadMd5, compBadSize]
    componentsByType := fun _ => []
    componentsByName := []
    containers := []
    imagefs := none
    defaults := some defsW
    executionConfig := none
    config := cfg0 }

/-- Registry in which all three default component slots resolve to id 1. -/
def reg5ok : Registry :=
  { components := [compA]
    componentsByType := fun _ => []
    componentsByName := []
    containers := [cont0]
    imagefs := some ifs0
    defaults := some defsOk
    executionConfig := some ec0
    config := cfg0 }

/-- `defsOk` with `dxvk` pointing at the unregistered id 99. -/
def defsBadDxvk : Defaults :=
  { defsOk with dxvk := 99 }

/-- `reg5ok` with an unresolvable `defaults.dxvk`. -/
def reg5bad : Registry :=
  { reg5ok with defaults := some defsBadDxvk }

/-- `defsOk` with generic script ids [1, 99], of which only 1 resolves. -/
def defs6 : Defaults :=
  { defsOk with genericComponentIds := [1, 99] }

/-- Registry for the execute-script fixtures: container 100 present,
component 1 registered, generic ids [1, 99]. -/
def reg6 : Registry :=
  { reg5ok with defaults := some defs6 }

/-- `defs6` whose `container` id 999 matches no container. -/
def defs6bad : Defaults :=
  { defs6 with container := 999 }

/-- `reg6` with an unresolvable `defaults.container`. -/
def reg6bad : Registry :=
  { reg6 with defaults := some defs6bad }

/-- Example component of the manifest-ordering example: id 1, type 3. -/
def exC1 : Component := mkComp 1 3 "one" "one.tzst" md5Sample (.str "1")

/-- Example component of the manifest-ordering example: id 2, type 3. -/
def exC2 : Component := mkComp 2 3 "two" "two.tzst" md5Sample (.str "2")

/-- Example component of the index example: id 5, type 3. -/
def exI5 : Component := mkComp 5 3 "five" "five.tzst" md5Sample (.str "5")

/-- Example component of the index example: id 9, type 3. -/
def exI9 : Component := mkComp 9 3 "nine" "nine.tzst" md5Sample (.str "9")

/-- Example component of the index example: id 2, type 1. -/
def exI2 : Component := mkComp 2 1 "two-b" "two-b.tzst" md5Sample (.str "2")

/-- The property `addComponent` establishes on every stored component:
`download_url` and `logo` carry the configured values. -/
def IsRewritten (cfg : BuildConfig) (c : Component) : Prop :=
  c.download_url = cfg.cdnBaseUrl ++ "/" ++ c.file_name ∧ c.logo = cfg.logoUrl

lemma isRewritten_rewriteComponent (cfg : BuildConfig) (c : Component) :
    IsRewritten cfg (rewriteComponent cfg c) :=
  ⟨rfl, rfl⟩

/-- Registry invariant maintained by registration: the configuration is
fixed, every stored component is rewritten, each type partition is the
type filter of the id map, and every name-index entry is rewritten. -/
def RegInv (cfg : BuildConfig) (r : Registry) : Prop :=
  r.config = cfg ∧
  (∀ c ∈ r.components, IsRewritten cfg c) ∧
  (∀ t, r.componentsByType t = r.components.filter (fun c => c.type == t)) ∧
  (∀ kv ∈ r.componentsByName, IsRewritten cfg kv.2)

lemma regInv_empty (cfg : BuildConfig) : RegInv cfg (emptyRegistry cfg) := by
  refine ⟨rfl, ?_, ?_, ?_⟩ <;> simp [emptyRegistry]

lemma mem_mapSetName {k : String} {v : Component} :
    ∀ {l : List (String × Component)} {kv : String × Component},
      kv ∈ mapSetName k v l → kv = (k, v) ∨ kv ∈ l := by
  intro l
  induction l with
  | nil =>
    intro kv h
    simp only [mapSetName, List.mem_singleton] at h
    exact Or.inl h
  | cons hd tl ih =>
    intro kv h
    simp only [mapSetName] at h
    split at h
    · rcases List.mem_cons.mp h with h1 | h1
      · exact Or.inl h1
      · exact Or.inr (List.mem_cons_of_mem _ h1)
    · rcases List.mem_cons.mp h with h1 | h1
      · exact Or.inr (h1 ▸ List.mem_cons_self _ _)
      · rcases ih h1 with h2 | h2
        · exact Or.inl h2
        · exact Or.inr (List.mem_cons_of_mem _ h2)

lemma addComponent_config (r : Registry) (c : Component) :
    (addComponent r c).config = r.config := by
  unfold addComponent
  split <;> rfl

lemma regInv_addComponent {cfg : BuildConfig} {r : Registry} (c : Component)
    (h : RegInv cfg r) : RegInv cfg (addComponent r c) := by
  obtain ⟨hcfg, hcomp, htype, hname⟩ := h
  unfold addComponent
  split
  · exact ⟨hcfg, hcomp, htype, hname⟩
  · refine ⟨hcfg, ?_, ?_, ?_⟩
    · intro x hx
      rcases List.mem_append.mp hx with hx | hx
      · exact hcomp x hx
      · rw [List.mem_singleton.mp hx, hcfg]
        exact isRewritten_rewriteComponent cfg c
    · intro t
      show (if t == c.type then r.componentsByType t ++ [rewriteComponent r.config c]
            else r.componentsByType t) =
          (r.components ++ [rewriteComponent r.config c]).filter (fun x => x.type == t)
      rw [List.filter_append, htype t]
      by_cases ht : t = c.type
      · subst ht
        simp [List.filter, rewriteComponent]
      · have h1 : (t == c.type) = false := by simp [ht]
        have h2 : ((rewriteComponent r.config c).type == t) = false := by
          simp [rewriteComponent]
          exact fun hh => ht hh.symm
        simp [h1, List.filter, h2]
    · intro kv hkv
      rcases mem_mapSetName hkv with h1 | h1
      · rw [h1, hcfg]
        exact isRewritten_rewriteComponent cfg c
      · exact hname kv h1

lemma regInv_foldl {cfg : BuildConfig} :
    ∀ (cs : List Component) (r : Registry), RegInv cfg r →
      RegInv cfg (List.foldl addComponent r cs)
  | [], _, h => h
  | c :: cs, r, h => regInv_foldl cs (addComponent r c) (regInv_addComponent c h)

lemma regInv_build (cfg : BuildConfig) (cs : List Component) :
    RegInv cfg (buildRegistry cfg cs) :=
  regInv_foldl cs (emptyRegistry cfg) (regInv_empty cfg)

lemma mem_components_foldl :
    ∀ (cs : List Component) (r : Registry) (x : Component),
      x ∈ (List.foldl addComponent r cs).components →
      x ∈ r.components ∨ ∃ c ∈ cs, x = rewriteComponent r.config c := by
  intro cs
  induction cs with
  | nil =>
    intro r x h
    exact Or.inl h
  | cons c cs ih =>
    intro r x h
    rcases ih (addComponent r c) x h with h1 | ⟨c', hc', hx⟩
    · unfold addComponent at h1
      split at h1
      · exact Or.inl h1
      · rcases List.mem_append.mp h1 with h2 | h2
        · exact Or.inl h2
        · exact Or.inr ⟨c, List.mem_cons_self _ _, List.mem_singleton.mp h2⟩
    · rw [addComponent_config] at hx
      exact Or.inr ⟨c', List.mem_cons_of_mem _ hc', hx⟩

lemma addComponent_eq_self_of_any {r : Registry} {c : Component}
    (h : r.components.any (fun e => e.id == c.id) = true) :
    addComponent r c = r := by
  simp [addComponent, h]

lemma getById_addComponent (r : Registry) (c : Component) (i : Int) :
    getById (addComponent r c) i =
      if r.components.any (fun e => e.id == c.id) then getById r i
      else (getById r i).or
        (if c.id == i then some (rewriteComponent r.config c) else none) := by
  unfold addComponent getById
  split
  · rfl
  · rw [List.find?_append]
    have : [rewriteComponent r.config c].find? (fun x => x.id == i) =
        (if c.id == i then some (rewriteComponent r.config c) else none) := by
      have hid : (rewriteComponent r.config c).id = c.id := rfl
      by_cases h : c.id = i
      · have hb : (c.id == i) = true := by simp [h]
        simp only [List.find?, hid, hb, if_true]
      · have hb : (c.id == i) = false := by simp [h]
        simp [List.find?, hid, hb]
    rw [this]

lemma getById_foldl :
    ∀ (cs : List Component) (r : Registry) (i : Int),
      getById (List.foldl addComponent r cs) i =
        (getById r i).or
          ((cs.find? (fun c => c.id == i)).map (rewriteComponent r.config)) := by
  intro cs
  induction cs with
  | nil =>
    intro r i
    simp [Option.or_none]
  | cons c cs ih =>
    intro r i
    show getById (List.foldl addComponent (addComponent r c) cs) i = _
    rw [ih (addComponent r c) i, addComponent_config, getById_addComponent]
    by_cases hdup : r.components.any (fun e => e.id == c.id) = true
    · rw [if_pos hdup]
      by_cases hci : c.id = i
      · obtain ⟨e, he, hee⟩ := List.any_eq_true.mp hdup
        have : (getById r i).isSome := by
          apply List.find?_isSome.mpr
          refine ⟨e, he, ?_⟩
          have : e.id = c.id := by simpa using hee
          simp [this, hci]
        obtain ⟨w, hw⟩ := Option.isSome_iff_exists.mp this
        rw [hw]
        simp [Option.or]
      · have hb : (c.id == i) = false := by simp [hci]
        have : ((c :: cs).find? (fun x => x.id == i)) = cs.find? (fun x => x.id == i) := by
          simp only [List.find?, hb]
        rw [this]
    · rw [if_neg hdup]
      by_cases hci : c.id = i
      · have hb : (c.id == i) = true := by simp [hci]
        have hfind : ((c :: cs).find? (fun x => x.id == i)) = some c := by
          simp only [List.find?, hb]
        rw [hfind, hb]
        cases hg : getById r i
        · simp [Option.none_or, Option.or]
        · simp [Option.or]
      · have hb : (c.id == i) = false := by simp [hci]
        have hfind : ((c :: cs).find? (fun x => x.id == i)) =
            cs.find? (fun x => x.id == i) := by
          simp only [List.find?, hb]
        rw [hfind, hb]
        cases hg : getById r i
        · simp [Option.none_or, Option.or]
        · simp [Option.or]

lemma perm_insertDescById (c : Component) :
    ∀ (l : List Component), (insertDescById c l).Perm (c :: l) := by
  intro l
  induction l with
  | nil => exact List.Perm.refl _
  | cons d ds ih =>
    unfold insertDescById
    split
    · exact List.Perm.refl _
    · exact (List.Perm.cons d ih).trans (List.Perm.swap c d ds)

lemma perm_sortByIdDescending :
    ∀ (l : List Component), (sortByIdDescending l).Perm l := by
  intro l
  induction l with
  | nil => exact List.Perm.refl _
  | cons c cs ih =>
    exact (perm_insertDescById c (sortByIdDescending cs)).trans (List.Perm.cons c ih)

lemma mem_insertDescById {c x : Component} {l : List Component}
    (h : x ∈ insertDescById c l) : x = c ∨ x ∈ l := by
  have := (perm_insertDescById c l).mem_iff.mp h
  simpa using this

lemma pairwise_insertDescById {c : Component} :
    ∀ {l : List Component},
      l.Pairwise (fun a b => b.id ≤ a.id) →
      (insertDescById c l).Pairwise (fun a b => b.id ≤ a.id) := by
  intro l
  induction l with
  | nil =>
    intro _
    simp [insertDescById]
  | cons d ds ih =>
    intro h
    obtain ⟨hd, hds⟩ := List.pairwise_cons.mp h
    unfold insertDescById
    split
    · rename_i hle
      refine List.pairwise_cons.mpr ⟨?_, h⟩
      intro b hb
      rcases List.mem_cons.mp hb with rfl | hb
      · exact hle
      · exact le_trans (hd b hb) hle
    · rename_i hgt
      refine List.pairwise_cons.mpr ⟨?_, ih hds⟩
      intro b hb
      rcases mem_insertDescById hb with rfl | hb
      · exact le_of_not_le hgt
      · exact hd b hb

lemma pairwise_sortByIdDescending :
    ∀ (l : List Component),
      (sortByIdDescending l).Pairwise (fun a b => b.id ≤ a.id) := by
  intro l
  induction l with
  | nil => simp [sortByIdDescending]
  | cons c cs ih => exact pairwise_insertDescById ih

lemma filter_insertDescById (c : Component) (k : Int) :
    ∀ (l : List Component),
      (insertDescById c l).filter (fun x => x.id == k) =
        (c :: l).filter (fun x => x.id == k) := by
  intro l
  induction l with
  | nil => rfl
  | cons d ds ih =>
    unfold insertDescById
    split
    · rfl
    · rename_i hgt
      have hlt : c.id < d.id := lt_of_not_le hgt
      by_cases hc : c.id = k
      · have hd : d.id ≠ k := by omega
        have hcb : (c.id == k) = true := by simp [hc]
        have hdb : (d.id == k) = false := by simp [hd]
        simp only [List.filter_cons, hcb, hdb, if_true, if_false, ih,
          Bool.false_eq_true]
      · have hcb : (c.id == k) = false := by simp [hc]
        by_cases hd : d.id = k
        · have hdb : (d.id == k) = true := by simp [hd]
          simp only [List.filter_cons, hcb, hdb, if_true, if_false, ih,
            Bool.false_eq_true]
        · have hdb : (d.id == k) = false := by simp [hd]
          simp only [List.filter_cons, hcb, hdb, if_true, if_false, ih,
            Bool.false_eq_true]

lemma filter_sortByIdDescending (k : Int) :
    ∀ (l : List Component),
      (sortByIdDescending l).filter (fun x => x.id == k) =
        l.filter (fun x => x.id == k) := by
  intro l
  induction l with
  | nil => rfl
  | cons c cs ih =>
    show (insertDescById c (sortByIdDescending cs)).filter _ = _
    rw [filter_insertDescById, List.filter_cons, List.filter_cons, ih]

lemma mem_validate_of_mem_componentErrors {r : Registry} {c : Component}
    (hc : c ∈ r.components) {m : String}
    (hm : m ∈ validateComponentErrors c) : m ∈ (validate r).errors := by
  unfold validate
  simp only [List.mem_append]
  refine Or.inl (Or.inr ?_)
  exact List.mem_flatMap.mpr ⟨c, hc, hm⟩

lemma mem_validate_of_mem_defaultsErrors {r : Registry} {d : Defaults}
    (hd : r.defaults = some d) {m : String}
    (hm : m ∈ validateDefaultsErrors r d) : m ∈ (validate r).errors := by
  unfold validate
  simp only [List.mem_append]
  refine Or.inr ?_
  rw [hd]
  exact hm

lemma collectExecuteComponents_eq_filterMap (r : Registry) :
    ∀ (ids : List Int),
      collectExecuteComponents r ids =
        ids.filterMap (fun i => (getById r i).map toExecuteComponent) := by
  intro ids
  induction ids with
  | nil => rfl
  | cons i is ih =>
    unfold collectExecuteComponents
    cases h : getById r i with
    | none => simp [List.filterMap_cons, h, ih]
    | some c => simp [List.filterMap_cons, h, ih]

lemma sum_type_filter_lengths :
    ∀ (l : List Component), (∀ c ∈ l, 1 ≤ c.type ∧ c.type ≤ 7) →
      (l.filter (fun c => c.type == 1)).length +
      (l.filter (fun c => c.type == 2)).length +
      (l.filter (fun c => c.type == 3)).length +
      (l.filter (fun c => c.type == 4)).length +
      (l.filter (fun c => c.type == 5)).length +
      (l.filter (fun c => c.type == 6)).length +
      (l.filter (fun c => c.type == 7)).length = l.length := by
  intro l
  induction l with
  | nil => intro _; rfl
  | cons c cs ih =>
    intro h
    have hc := h c (List.mem_cons_self _ _)
    have hcs := fun x hx => h x (List.mem_cons_of_mem _ hx)
    have ihcs := ih hcs
    have hcases : c.type = 1 ∨ c.type = 2 ∨ c.type = 3 ∨ c.type = 4 ∨
        c.type = 5 ∨ c.type = 6 ∨ c.type = 7 := by omega
    rcases hcases with ht | ht | ht | ht | ht | ht | ht <;>
      simp only [List.filter_cons, ht, List.length_cons] <;>
      norm_num <;> omega

/-- C7: for every list of components, `sortByIdDescending` returns a
permutation of the input, totally ordered by numeric id descending
(pairwise `b.id ≤ a.id`), and stable: for every key `k`, the subsequence
of elements with id `k` is exactly the input's subsequence, so any two
elements with equal ids keep their relative order. -/
theorem sortByIdDescending_spec (l : List Component) :
    (sortByIdDescending l).Perm l ∧
    (sortByIdDescending l).Pairwise (fun a b => b.id ≤ a.id) ∧
    ∀ k : Int, (sortByIdDescending l).filter (fun c => c.id == k) =
      l.filter (fun c => c.id == k) :=
  ⟨perm_sortByIdDescending l, pairwise_sortByIdDescending l,
    fun k => filter_sortByIdDescending k l⟩

/-- C1: after any sequence of `addComponent` calls (component types in
the TypeScript range 1..7), every component reachable through `getById`,
`getByName`, `getByType` and `getAllComponents` has
`download_url = cdnBaseUrl ++ "/" ++ file_name` (its `file_name` is the
one supplied at registration) and `logo = logoUrl`, regardless of the
source-supplied `download_url` and `logo` (`IsRewritten` is exactly this
pair of equations). -/
theorem registered_components_have_configured_url_and_logo
    (cfg : BuildConfig) (cs : List Component)
    (htypes : ∀ c ∈ cs, 1 ≤ c.type ∧ c.type ≤ 7) :
    (∀ i co, getById (buildRegistry cfg cs) i = some co → IsRewritten cfg co) ∧
    (∀ n co, getByName (buildRegistry cfg cs) n = some co → IsRewritten cfg co) ∧
    (∀ t co, co ∈ getByType (buildRegistry cfg cs) t → IsRewritten cfg co) ∧
    (∀ co ∈ getAllComponents (buildRegistry cfg cs), IsRewritten cfg co) := by
  obtain ⟨hcfg, hcomp, htypeInv, hname⟩ := regInv_build cfg cs
  refine ⟨?_, ?_, ?_, ?_⟩
  · intro i co h
    exact hcomp co (List.mem_of_find?_eq_some h)
  · intro n co h
    unfold getByName at h
    cases hf : (buildRegistry cfg cs).componentsByName.find? (fun kv => kv.1 == n) with
    | none => rw [hf] at h; cases h
    | some kv =>
      rw [hf] at h
      simp only [Option.map_some'] at h
      injection h with h2
      rw [← h2]
      exact hname kv (List.mem_of_find?_eq_some hf)
  · intro t co h
    unfold getByType at h
    rw [htypeInv t] at h
    exact hcomp co (List.mem_filter.mp h).1
  · intro co h
    exact hcomp co h

/-- Witness for C1 at a concrete input: registering `compA` under `cfg0`
yields a stored component with the configured URL and logo. -/
theorem registered_components_have_configured_url_and_logo_witness :
    (∀ c ∈ [compA], 1 ≤ c.type ∧ c.type ≤ 7) ∧
    IsRewritten cfg0 (rewriteComponent cfg0 compA) :=
  ⟨by decide,
    (registered_components_have_configured_url_and_logo cfg0 [compA] (by decide)).1
      1 (rewriteComponent cfg0 compA) (by decide)⟩

/-- C2: when `c.id` is already registered, `addComponent c` leaves the
whole registry state unchanged (hence every count, index and partition),
and the entry retrievable by that id is the rewrite of the first
component with that id in the registration sequence. Exceptions are not
modelled because this branch of the source only logs and returns. -/
theorem addComponent_duplicate_is_noop
    (cfg : BuildConfig) (cs : List Component) (c : Component)
    (htypes : ∀ e ∈ cs, 1 ≤ e.type ∧ e.type ≤ 7)
    (h : (getById (buildRegistry cfg cs) c.id).isSome = true) :
    addComponent (buildRegistry cfg cs) c = buildRegistry cfg cs ∧
    getById (buildRegistry cfg cs) c.id =
      (cs.find? (fun e => e.id == c.id)).map (rewriteComponent cfg) := by
  constructor
  · apply addComponent_eq_self_of_any
    rw [List.any_eq_true]
    obtain ⟨w, hw⟩ := Option.isSome_iff_exists.mp h
    have hw' : (buildRegistry cfg cs).components.find? (fun e => e.id == c.id) = some w := hw
    refine ⟨w, List.mem_of_find?_eq_some hw', ?_⟩
    have hp := List.find?_some hw'
    exact hp
  · have hfold := getById_foldl cs (emptyRegistry cfg) c.id
    have hempty : getById (emptyRegistry cfg) c.id = none := rfl
    rw [hempty, Option.none_or] at hfold
    exact hfold

/-- Witness for C2 at a concrete input: re-registering id 1 after
`[compA, compB]` changes nothing and keeps the first registration. -/
theorem addComponent_duplicate_is_noop_witness :
    ((getById (buildRegistry cfg0 [compA, compB]) compDupA.id).isSome = true) ∧
    (addComponent (buildRegistry cfg0 [compA, compB]) compDupA =
      buildRegistry cfg0 [compA, compB] ∧
    getById (buildRegistry cfg0 [compA, compB]) compDupA.id =
      ([compA, compB].find? (fun e => e.id == compDupA.id)).map (rewriteComponent cfg0)) :=
  ⟨by decide,
    addComponent_duplicate_is_noop cfg0 [compA, compB] compDupA (by decide) (by decide)⟩

/-- C3: `validate` reports the MD5-format error for each and every
component whose `file_md5` fails `^[a-f0-9]{32}$/i`, and does not
short-circuit: every other per-component violation and every
default-reference violation is reported in the same errors list as well. -/
theorem validate_reports_every_md5_violation
    (r : Registry) :
    (∀ c ∈ r.components, md5Ok c.file_md5 = false → msgMd5 c ∈ (validate r).errors) ∧
    (∀ c ∈ r.components, c.file_size.isStr = false → msgFileSize c ∈ (validate r).errors) ∧
    (∀ c ∈ r.components, c.name = "" → msgName c ∈ (validate r).errors) ∧
    (∀ c ∈ r.components, c.file_name = "" → msgFileName c ∈ (validate r).errors) ∧
    (∀ c ∈ r.components, c.download_url = "" → msgDownloadUrl c ∈ (validate r).errors) ∧
    (∀ d, r.defaults = some d →
      (r.components.any (fun c => c.id == d.dxvk) = false →
        msgDxvk d.dxvk ∈ (validate r).errors) ∧
      (∀ i ∈ d.genericComponentIds,
        r.components.any (fun c => c.id == i) = false →
          msgGeneric i ∈ (validate r).errors)) := by
  refine ⟨?_, ?_, ?_, ?_, ?_, ?_⟩
  · intro c hc h
    exact mem_validate_of_mem_componentErrors hc (by simp [validateComponentErrors, h])
  · intro c hc h
    exact mem_validate_of_mem_componentErrors hc (by simp [validateComponentErrors, h])
  · intro c hc h
    exact mem_validate_of_mem_componentErrors hc (by simp [validateComponentErrors, h])
  · intro c hc h
    exact mem_validate_of_mem_componentErrors hc (by simp [validateComponentErrors, h])
  · intro c hc h
    exact mem_validate_of_mem_componentErrors hc (by simp [validateComponentErrors, h])
  · intro d hd
    constructor
    · intro h
      apply mem_validate_of_mem_defaultsErrors hd
      unfold validateDefaultsErrors
      simp [h]
    · intro i hi h
      apply mem_validate_of_mem_defaultsErrors hd
      unfold validateDefaultsErrors
      refine List.mem_append.mpr (Or.inl (List.mem_append.mpr (Or.inr ?_)))
      exact List.mem_flatMap.mpr ⟨i, hi, by simp [h]⟩

/-- Witness for C3 at a concrete registry: the bad-MD5 component, the
numeric-file_size component and the dangling dxvk reference are all
reported together. -/
theorem validate_reports_every_md5_violation_witness :
    (compBadMd5 ∈ regW3.components) ∧ (md5Ok compBadMd5.file_md5 = false) ∧
    msgMd5 compBadMd5 ∈ (validate regW3).errors ∧
    msgFileSize compBadSize ∈ (validate regW3).errors ∧
    msgDxvk 99 ∈ (validate regW3).errors := by
  refine ⟨by decide, by decide, ?_, ?_, ?_⟩
  · exact (validate_reports_every_md5_violation regW3).1 compBadMd5 (by decide) (by decide)
  · exact (validate_reports_every_md5_violation regW3).2.1 compBadSize (by decide) (by decide)
  · exact ((validate_reports_every_md5_violation regW3).2.2.2.2.2 defsW rfl).1 (by decide)

/-- C4 counterexample: in `reg4` the registered component's `file_size`
is the string "abc", which is not a string of decimal digits, yet
`validate` returns an empty errors list (and `valid = true`): the
claimed digit-format violation is not reported. -/
theorem validate_ignores_nondigit_file_size_cex :
    (getById reg4 1).map (fun c => c.file_size) = some (JsValue.str "abc") ∧
    allDigits "abc" = false ∧
    (validate reg4).errors = [] ∧ (validate reg4).valid = true := by
  decide

/-- C4 (amended): `validate` reports the per-component file_size error
exactly for components whose `file_size` is not a string at runtime
(`typeof !== 'string'`); the digit content of string values is not
checked. -/
theorem validate_reports_nonstring_file_size (r : Registry) :
    ∀ c ∈ r.components, c.file_size.isStr = false →
      msgFileSize c ∈ (validate r).errors := by
  intro c hc h
  exact mem_validate_of_mem_componentErrors hc (by simp [validateComponentErrors, h])

/-- Witness for the amended C4: the numeric-file_size component is
reported in `regW3`. -/
theorem validate_reports_nonstring_file_size_witness :
    (compBadSize ∈ regW3.components) ∧ (compBadSize.file_size.isStr = false) ∧
    msgFileSize compBadSize ∈ (validate regW3).errors :=
  ⟨by decide, by decide,
    validate_reports_nonstring_file_size regW3 compBadSize (by decide) (by decide)⟩

/-- C5: with `defaults` loaded, `generateDefaultComponent` throws
"Default components not found in registry" whenever any of
`defaults.dxvk`, `defaults.vkd3d`, `defaults.steamClient` fails to
resolve to a registered component, and when all three resolve it returns
the code-200 document with the three resolved entries and the empty
translator placeholder. -/
theorem generateDefaultComponent_fails_hard_or_succeeds
    (r : Registry) (d : Defaults) (ts : String)
    (hd : r.defaults = some d) :
    (((getById r d.dxvk).isNone ∨ (getById r d.vkd3d).isNone ∨
        (getById r d.steamClient).isNone) →
      generateDefaultComponent r ts =
        Except.error "Default components not found in registry") ∧
    (∀ dx vk st, getById r d.dxvk = some dx → getById r d.vkd3d = some vk →
      getById r d.steamClient = some st →
      generateDefaultComponent r ts = Except.ok
        { code := 200
          msg := "Success"
          data :=
            { container := none
              gpu := none
              dxvk := toDefaultComponentEntry dx
              vkd3d := toDefaultComponentEntry vk
              translator := createEmptyComponent
              steamClient := toDefaultComponentEntry st }
          time := ts }) := by
  constructor
  · intro hmiss
    cases h1 : getById r d.dxvk with
    | none => simp [generateDefaultComponent, hd, h1]
    | some dx =>
      cases h2 : getById r d.vkd3d with
      | none => simp [generateDefaultComponent, hd, h1, h2]
      | some vk =>
        cases h3 : getById r d.steamClient with
        | none => simp [generateDefaultComponent, hd, h1, h2, h3]
        | some st =>
          exfalso
          rcases hmiss with h | h | h <;>
            simp [h1, h2, h3, Option.isNone] at h
  · intro dx vk st h1 h2 h3
    simp [generateDefaultComponent, hd, h1, h2, h3]

/-- Witness for C5: with `defaults.dxvk = 99` unregistered the generator
throws; with all three slots resolving to `compA` it returns the
expected document. -/
theorem generateDefaultComponent_fails_hard_or_succeeds_witness :
    (reg5bad.defaults = some defsBadDxvk) ∧
    (generateDefaultComponent reg5bad "t" =
      Except.error "Default components not found in registry") ∧
    (generateDefaultComponent reg5ok "t" = Except.ok
      { code := 200
        msg := "Success"
        data :=
          { container := none
            gpu := none
            dxvk := toDefaultComponentEntry compA
            vkd3d := toDefaultComponentEntry compA
            translator := createEmptyComponent
            steamClient := toDefaultComponentEntry compA }
        time := "t" }) := by
  refine ⟨rfl, ?_, ?_⟩
  · exact (generateDefaultComponent_fails_hard_or_succeeds reg5bad defsBadDxvk "t" rfl).1
      (Or.inl (by decide))
  · exact (generateDefaultComponent_fails_hard_or_succeeds reg5ok defsOk "t" rfl).2
      compA compA compA (by decide) (by decide) (by decide)

/-- C6: with the singletons loaded, `generateExecuteScript` for the
generic variant throws "Container {id} not found" when no container
matches `defaults.container`; when one matches, it succeeds and the
document's `component` list holds exactly the entries of the resolvable
ids of `defaults.genericComponentIds` in their original order
(unresolvable ids silently skipped), while `component_ids` still lists
every configured id. -/
theorem generateExecuteScript_generic_spec (r : Registry) (d : Defaults)
    (ec : ExecutionConfig) (ifs : Imagefs) (ts : String)
    (hd : r.defaults = some d) (hec : r.executionConfig = some ec)
    (hifs : r.imagefs = some ifs) :
    (r.containers.find? (fun c => c.id == d.container) = none →
      generateExecuteScript r Variant.generic ts =
        Except.error ("Container " ++ toString d.container ++ " not found")) ∧
    (∀ cont, r.containers.find? (fun c => c.id == d.container) = some cont →
      ∃ f, generateExecuteScript r Variant.generic ts = Except.ok f ∧
        f.data.component = d.genericComponentIds.filterMap
          (fun i => (getById r i).map toExecuteComponent) ∧
        f.data.component_ids = d.genericComponentIds) := by
  constructor
  · intro hfind
    simp [generateExecuteScript, hd, hfind]
  · intro cont hfind
    have hred : generateExecuteScript r Variant.generic ts = Except.ok
        { code := 200
          msg := "Success"
          data :=
            { audio_driver := ec.audio_driver
              component := collectExecuteComponents r d.genericComponentIds
              component_ids := d.genericComponentIds
              container := toContainerRef cont
              container_id := d.container
              controller := ec.controller
              cpu_limitations := ec.cpu_limitations
              directx_panel := ec.directx_panel
              environment := ec.environment
              execution_context := d.genericContext
              imagefs := toImagefsRef ifs
              launch_windowed_mode := ec.launch_windowed_mode
              start_param := ec.start_param
              translations := ec.translations
              video_memory := ec.video_memory }
          time := ts } := by
      simp [generateExecuteScript, hd, hfind, hec, hifs]
    exact ⟨_, hred, collectExecuteComponents_eq_filterMap r d.genericComponentIds, rfl⟩

/-- Witness for C6: in `reg6` (container 100 present, generic ids
[1, 99] with only 1 registered) the document holds one entry but both
ids; in `reg6bad` (container id 999) the generator throws. -/
theorem generateExecuteScript_generic_spec_witness :
    ((generateExecuteScript reg6 Variant.generic "t").map
      (fun f => f.data.component) = Except.ok [toExecuteComponent compA]) ∧
    ((generateExecuteScript reg6 Variant.generic "t").map
      (fun f => f.data.component_ids) = Except.ok ([1, 99] : List Int)) ∧
    (generateExecuteScript reg6bad Variant.generic "t" =
      Except.error ("Container " ++ toString (999 : Int) ++ " not found")) := by
  obtain ⟨f, hf, hcomp, hids⟩ :=
    (generateExecuteScript_generic_spec reg6 defs6 ec0 ifs0 "t" rfl rfl rfl).2
      cont0 (by decide)
  refine ⟨?_, ?_, ?_⟩
  · rw [hf]
    simp only [Except.map]
    rw [hcomp]
    exact congrArg Except.ok (by decide)
  · rw [hf]
    simp only [Except.map]
    rw [hids]
    rfl
  · exact (generateExecuteScript_generic_spec reg6bad defs6bad ec0 ifs0 "t" rfl rfl rfl).1
      (by decide)

/-- C8: for a registry reached by registering `cs` (types in 1..7) and
any type `t` in 1..7, `generateManifest(t).data.components` is exactly
the registered components of type `t` (a permutation of the type filter
of the id map, projected to manifest entries) ordered by id descending;
in particular registering [{id 1, type 3}, {id 2, type 3}] in that order
yields manifest order [id 2, id 1]. -/
theorem generateManifest_spec (cfg : BuildConfig) (cs : List Component) (t : Nat)
    (htypes : ∀ c ∈ cs, 1 ≤ c.type ∧ c.type ≤ 7) (ht : 1 ≤ t ∧ t ≤ 7) :
    ((generateManifest (buildRegistry cfg cs) t).data.components).Perm
      (((buildRegistry cfg cs).components.filter (fun c => c.type == t)).map
        toManifestComponent) ∧
    ((generateManifest (buildRegistry cfg cs) t).data.components).Pairwise
      (fun a b => b.id ≤ a.id) ∧
    ((generateManifest (buildRegistry cfg0 [exC1, exC2]) 3).data.components.map
      (fun c => c.id) = [2, 1]) := by
  obtain ⟨hcfg, hcomp, htypeInv, hname⟩ := regInv_build cfg cs
  refine ⟨?_, ?_, by decide⟩
  · show ((sortByIdDescending
        (getByType (buildRegistry cfg cs) t)).map toManifestComponent).Perm _
    unfold getByType
    rw [htypeInv t]
    exact List.Perm.map toManifestComponent
      (perm_sortByIdDescending ((buildRegistry cfg cs).components.filter
        (fun c => c.type == t)))
  · show ((sortByIdDescending
        (getByType (buildRegistry cfg cs) t)).map toManifestComponent).Pairwise _
    rw [List.pairwise_map]
    exact pairwise_sortByIdDescending _

/-- Witness for C8: the concrete example of the claim. -/
theorem generateManifest_spec_witness :
    (∀ c ∈ [exC1, exC2], 1 ≤ c.type ∧ c.type ≤ 7) ∧
    ((generateManifest (buildRegistry cfg0 [exC1, exC2]) 3).data.components).Perm
      (((buildRegistry cfg0 [exC1, exC2]).components.filter (fun c => c.type == 3)).map
        toManifestComponent) ∧
    ((generateManifest (buildRegistry cfg0 [exC1, exC2]) 3).data.components.map
      (fun c => c.id) = [2, 1]) := by
  have h := generateManifest_spec cfg0 [exC1, exC2] 3 (by decide) (by decide)
  exact ⟨by decide, h.1, h.2.2⟩

/-- C9: `generateIndex` returns exactly seven categories ordered by type
1..7 ascending, each carrying the count of registered components of its
type, with `total_components` the total registered count; plus the
concrete example with types [3, 3, 1] and ids [5, 9, 2]. -/
theorem generateIndex_spec (cfg : BuildConfig) (cs : List Component)
    (htypes : ∀ c ∈ cs, 1 ≤ c.type ∧ c.type ≤ 7) :
    ((generateIndex (buildRegistry cfg cs)).data.categories.map
      (fun cat => cat.type) = [1, 2, 3, 4, 5, 6, 7]) ∧
    (∀ cat ∈ (generateIndex (buildRegistry cfg cs)).data.categories,
      cat.count = ((buildRegistry cfg cs).components.filter
        (fun c => c.type == cat.type)).length) ∧
    ((generateIndex (buildRegistry cfg cs)).data.total_components =
      ((buildRegistry cfg cs).components).length) ∧
    ((generateIndex (buildRegistry cfg0 [exI5, exI9, exI2])).data.categories.map
      (fun cat => (cat.type, cat.count)) =
      [(1, 1), (2, 0), (3, 2), (4, 0), (5, 0), (6, 0), (7, 0)]) ∧
    ((generateIndex (buildRegistry cfg0 [exI5, exI9, exI2])).data.total_components = 3) := by
  obtain ⟨hcfg, hcomp, htypeInv, hname⟩ := regInv_build cfg cs
  refine ⟨rfl, ?_, rfl, by decide, by decide⟩
  intro cat hcat
  obtain ⟨k, hk, hkc⟩ := List.mem_map.mp hcat
  rw [← hkc]
  show getCountByType (buildRegistry cfg cs) (k + 1) = _
  unfold getCountByType getByType
  rw [htypeInv (k + 1)]
  rfl

/-- Witness for C9: the hypotheses hold at the example input and the
conclusions follow. -/
theorem generateIndex_spec_witness :
    (∀ c ∈ [exI5, exI9, exI2], 1 ≤ c.type ∧ c.type ≤ 7) ∧
    ((generateIndex (buildRegistry cfg0 [exI5, exI9, exI2])).data.categories.map
      (fun cat => (cat.type, cat.count)) =
      [(1, 1), (2, 0), (3, 2), (4, 0), (5, 0), (6, 0), (7, 0)]) ∧
    ((generateIndex (buildRegistry cfg0 [exI5, exI9, exI2])).data.total_components = 3) := by
  have h := generateIndex_spec cfg0 [exI5, exI9, exI2] (by decide)
  exact ⟨by decide, h.2.2.2.1, h.2.2.2.2⟩

/-- C10: for every registry reachable by `addComponent` calls (types in
1..7, rejected duplicates included), `getTotalCount` equals the sum of
`getCountByType t` for t = 1..7, and `getAllComponents` has exactly that
many elements. -/
theorem totalCount_eq_sum_of_type_counts (cfg : BuildConfig) (cs : List Component)
    (htypes : ∀ c ∈ cs, 1 ≤ c.type ∧ c.type ≤ 7) :
    (getTotalCount (buildRegistry cfg cs) =
      getCountByType (buildRegistry cfg cs) 1 + getCountByType (buildRegistry cfg cs) 2 +
      getCountByType (buildRegistry cfg cs) 3 + getCountByType (buildRegistry cfg cs) 4 +
      getCountByType (buildRegistry cfg cs) 5 + getCountByType (buildRegistry cfg cs) 6 +
      getCountByType (buildRegistry cfg cs) 7) ∧
    (getAllComponents (buildRegistry cfg cs)).length = getTotalCount (buildRegistry cfg cs) := by
  obtain ⟨hcfg, hcomp, htypeInv, hname⟩ := regInv_build cfg cs
  constructor
  · have hbound : ∀ x ∈ (buildRegistry cfg cs).components, 1 ≤ x.type ∧ x.type ≤ 7 := by
      intro x hx
      rcases mem_components_foldl cs (emptyRegistry cfg) x hx with h0 | ⟨c, hc, hxc⟩
      · cases h0
      · have hb := htypes c hc
        have : x.type = c.type := by rw [hxc]; rfl
        rw [this]
        exact hb
    have hsum := sum_type_filter_lengths (buildRegistry cfg cs).components hbound
    show (buildRegistry cfg cs).components.length = _
    rw [← hsum]
    unfold getCountByType getByType
    rw [htypeInv 1, htypeInv 2, htypeInv 3, htypeInv 4, htypeInv 5,
      htypeInv 6, htypeInv 7]
  · rfl

/-- Witness for C10 at a concrete input. -/
theorem totalCount_eq_sum_of_type_counts_witness :
    (∀ c ∈ [compA, compB, compDupA], 1 ≤ c.type ∧ c.type ≤ 7) ∧
    ((getTotalCount (buildRegistry cfg0 [compA, compB, compDupA]) =
      getCountByType (buildRegistry cfg0 [compA, compB, compDupA]) 1 +
      getCountByType (buildRegistry cfg0 [compA, compB, compDupA]) 2 +
      getCountByType (buildRegistry cfg0 [compA, compB, compDupA]) 3 +
      getCountByType (buildRegistry cfg0 [compA, compB, compDupA]) 4 +
      getCountByType (buildRegistry cfg0 [compA, compB, compDupA]) 5 +
      getCountByType (buildRegistry cfg0 [compA, compB, compDupA]) 6 +
      getCountByType (buildRegistry cfg0 [compA, compB, compDupA]) 7) ∧
    (getAllComponents (buildRegistry cfg0 [compA, compB, compDupA])).length =
      getTotalCount (buildRegistry cfg0 [compA, compB, compDupA])) :=
  ⟨by decide, totalCount_eq_sum_of_type_counts cfg0 [compA, compB, compDupA] (by decide)⟩
